import Mathlib

/-!
Shallow embedding of the Flux-Utils acquisition core
(`blitz_client.py`, `electricity_meter.py`, `third_party/__init__.py`).

Machine bytes are modelled as `ℕ` (each byte `< 256` in real frames),
frames as `List ℕ`, and Python floats as `ℚ` with the literal
constants of the source written as exact rationals.  Python `assert` failures and
raised exceptions are modelled as `Except.error`.
-/

namespace FluxUtils

/-- Python `raw[a:b]` on a byte string: drop `a`, keep `b - a` elements. -/
def slice (l : List ℕ) (a b : ℕ) : List ℕ := (l.drop a).take (b - a)

/-- Python `raw[i]`; out-of-range reads occur only behind short-circuited
length guards in the source, where the default value is never observed. -/
def byteAt (l : List ℕ) (i : ℕ) : ℕ := l.getD i 0

/-- `int.from_bytes` with byteorder little, unsigned. -/
def bytesToNatLE : List ℕ → ℕ
  | [] => 0
  | b :: rest => b + 256 * bytesToNatLE rest

/-- `int.from_bytes` with byteorder big, unsigned. -/
def bytesToNatBE (l : List ℕ) : ℕ := bytesToNatLE l.reverse

/-- Twos-complement reinterpretation of a 16-bit unsigned value,
for `int.from_bytes` with byteorder little, signed. -/
def toSigned16 (n : ℕ) : ℤ := if n < 32768 then (n : ℤ) else (n : ℤ) - 65536

/-! ## blitz_client.py — status byte and frame decoding -/

/-- `BLESensorStatus` (blitz_client.py:28-46). -/
structure BLESensorStatus where
  is_htu21d_online : Bool
  is_bmp280_online : Bool
  is_gy302_online : Bool
  is_sht4x_online : Bool
  is_end_of_battery : Bool
  deriving DecidableEq, Repr

/-- `BLESensorStatus.parse` (blitz_client.py:36-43).  The two `assert`
statements (byte range, and HTU21D/SHT4X mutual exclusion) are modelled
as `Except.error`, i.e. a raised `AssertionError`. -/
def BLESensorStatus.parse (data : ℕ) : Except Unit BLESensorStatus :=
  if data ≤ 255 then
    let s : BLESensorStatus :=
      ⟨decide (data &&& 0x80 ≠ 0), decide (data &&& 0x40 ≠ 0),
       decide (data &&& 0x20 ≠ 0), decide (data &&& 0x10 ≠ 0),
       decide (data &&& 0x01 ≠ 0)⟩
    if s.is_htu21d_online && s.is_sht4x_online then Except.error ()
    else Except.ok s
  else Except.error ()

/-- `supply_voltage` (blitz_client.py:61-63). -/
def supply_voltage (data : List ℕ) : ℚ := (bytesToNatLE data : ℚ) / 1000

/-- `htu21d_temperature` (blitz_client.py:64-66). -/
def htu21d_temperature (data : List ℕ) : ℚ :=
  (bytesToNatLE data : ℚ) * (17572 / 100) / 65536 - 4685 / 100

/-- `htu21d_humidity` (blitz_client.py:67-74), including both clamps. -/
def htu21d_humidity (data : List ℕ) : ℚ :=
  let ans : ℚ := (bytesToNatLE data : ℚ) * 125 / 65536 - 6
  let ans : ℚ := if ans > 100 then 100 else ans
  if ans < 0 then 0 else ans

/-- `sht4x_temperature` (blitz_client.py:75-77). -/
def sht4x_temperature (data : List ℕ) : ℚ :=
  (bytesToNatLE data : ℚ) * 175 / 65535 - 45

/-- `sht4x_humidity` (blitz_client.py:78-85), including both clamps. -/
def sht4x_humidity (data : List ℕ) : ℚ :=
  let ans : ℚ := (bytesToNatLE data : ℚ) * 125 / 65535 - 6
  let ans : ℚ := if ans > 100 then 100 else ans
  if ans < 0 then 0 else ans

/-- `bmp280_pressure` (blitz_client.py:86-88). -/
def bmp280_pressure (data : List ℕ) : ℚ := (bytesToNatLE data : ℚ) / 25600

/-- `bmp280_temperature` (blitz_client.py:89-91); the only signed field. -/
def bmp280_temperature (data : List ℕ) : ℚ :=
  ((toSigned16 (bytesToNatLE data) : ℤ) : ℚ) / 100

/-- `gy302_light` (blitz_client.py:92-94). -/
def gy302_light (data : List ℕ) : ℚ := (bytesToNatLE data : ℚ) / (12 / 10)

/-- The decoded dictionary returned by blitz `parse_data`: the parsed
status object plus the numeric entries, in insertion order. -/
structure BlitzReading where
  status : BLESensorStatus
  fields : List (String × ℚ)
  deriving DecidableEq, Repr

/-- blitz `parse_data` (blitz_client.py:60-112).  The `len(raw_data) == 17`
assert and any assert raised by `BLESensorStatus.parse` surface as
`Except.error` (a raised `AssertionError`); the inner two/four-byte length
asserts always hold because the slices of a 17-byte frame are exact. -/
def parse_data (raw : List ℕ) (mask : ℕ) : Except Unit BlitzReading :=
  if raw.length = 17 then
    match BLESensorStatus.parse (byteAt raw 1 &&& mask) with
    | Except.error e => Except.error e
    | Except.ok st =>
      let ans0 : List (String × ℚ) :=
        [("supply_voltage", supply_voltage (slice raw 2 4))]
      let ans1 := ans0 ++
        (if st.is_sht4x_online then
          [("temperature", sht4x_temperature (slice raw 4 6)),
           ("humidity", sht4x_humidity (slice raw 6 8))]
        else if st.is_htu21d_online then
          [("temperature", htu21d_temperature (slice raw 4 6)),
           ("humidity", htu21d_humidity (slice raw 6 8))]
        else [])
      let ans2 := ans1 ++
        (if st.is_bmp280_online then
          [("pressure", bmp280_pressure (slice raw 8 12)),
           ("temperature_aux", bmp280_temperature (slice raw 12 14))]
        else [])
      let ans3 := ans2 ++
        (if st.is_gy302_online then
          [("light", gy302_light (slice raw 14 16))]
        else [])
      Except.ok ⟨st, ans3⟩
  else Except.error ()

/-! ## blitz_client.py — read loop and supervisor error handling -/

/-- Outcome of one iteration of the inner read loop of `blitz_access`
(blitz_client.py:206-227) for one raw frame. -/
inductive ReadOutcome
  | malformedSkip
  /-- all-zero frame: extra pause (seconds), then continue the loop. -/
  | notReadyPause (secs : ℚ)
  /-- an `AssertionError` from `parse_data` escapes the read loop
  and is caught at the except boundary of the supervisor. -/
  | assertionError
  | emit (r : BlitzReading)
  deriving DecidableEq, Repr

/-- One read-loop iteration of `blitz_access` (blitz_client.py:206-213):
validate framing (length 17, marker `0x12`, trailer `0x23`), treat the
all-zero frame as "device not ready" with a 30 s pause, otherwise decode. -/
def readStep (raw : List ℕ) (mask : ℕ) : ReadOutcome :=
  if raw.length ≠ 17 ∨ byteAt raw 0 ≠ 0x12 ∨ byteAt raw 16 ≠ 0x23 then
    if raw = List.replicate 17 0 then ReadOutcome.notReadyPause 30
    else ReadOutcome.malformedSkip
  else
    match parse_data raw mask with
    | Except.error _ => ReadOutcome.assertionError
    | Except.ok r => ReadOutcome.emit r

/-- Whether the read loop proceeds to fetch the next frame after this
outcome.  Only an escaping exception leaves the loop (the connection is
then torn down and the except handler of the supervisor runs). -/
def staysInReadLoop : ReadOutcome → Bool
  | ReadOutcome.malformedSkip => true
  | ReadOutcome.notReadyPause _ => true
  | ReadOutcome.assertionError => false
  | ReadOutcome.emit _ => true

/-- Classification of an exception caught at the supervisor boundary of
`blitz_access` (blitz_client.py:230-243), by type / message inspection. -/
inductive BleError
  | deviceNotFound
  | noAdapters
  | inProgress
  | timeoutError
  | other
  deriving DecidableEq, Repr

/-- An `AssertionError` raised by `parse_data` is none of
`BleakDeviceNotFoundError` / adapter-missing / busy / `TimeoutError`,
so the handler of the supervisor classifies it as a generic failure. -/
def assertionErrorClass : BleError := BleError.other

/-- The except handler of the supervisor (blitz_client.py:230-250): returns
the list of backoff sleeps (seconds, in order) and the updated
consecutive-timeout counter.  On a timeout-class error the counter is
incremented and, once it exceeds 10, a 60 s sleep is prepended; the two
lines that would rescan and reset the counter are commented out in the
source, so the counter is left as incremented. -/
def handle_error (e : BleError) (timeout_count : ℕ) : List ℚ × ℕ :=
  match e with
  | BleError.deviceNotFound => ([60], timeout_count)
  | BleError.noAdapters => ([60], timeout_count)
  | BleError.inProgress => ([20], timeout_count)
  | BleError.timeoutError =>
      let tc := timeout_count + 1
      if tc > 10 then ([60, 3], tc) else ([3], tc)
  | BleError.other => ([3], timeout_count)

/-- Counter and per-occurrence backoff log after `n` consecutive
timeout-class connect failures starting from counter 0, with no
successful read in between (a successful read is the only point that
resets the counter, blitz_client.py:224). -/
def runTimeouts : ℕ → ℕ × List (List ℚ)
  | 0 => (0, [])
  | n + 1 =>
      let p := runTimeouts n
      let q := handle_error BleError.timeoutError p.1
      (q.2, p.2 ++ [q.1])

/-! ## third_party/__init__.py — WatchDog -/

/-- What one iteration of `WatchDog.loop` does
(third_party/__init__.py:42-52). -/
inductive WatchAction
  /-- `await asyncio.sleep d` and loop again. -/
  | sleepRecheck (d : ℚ)
  /-- report `Watch dog timed out` and `exit(-1)`. -/
  | fatalTimeout
  deriving DecidableEq, Repr

/-- One iteration of `WatchDog.loop` as a function of the state it reads:
the `enable` flag, the fixed `timeout`, the last-touch timestamp `ts` and
the current time `now` (third_party/__init__.py:42-52). -/
def watchdogStep (enable : Bool) (timeout ts now : ℚ) : WatchAction :=
  if enable = false then WatchAction.sleepRecheck (timeout / 2)
  else
    let time_expire := now - ts
    if time_expire ≥ timeout then WatchAction.fatalTimeout
    else WatchAction.sleepRecheck (timeout - time_expire)

/-- The loop continues after an action exactly when the action is a
sleep; `fatalTimeout` terminates the process. -/
def watchContinues : WatchAction → Bool
  | WatchAction.sleepRecheck _ => true
  | WatchAction.fatalTimeout => false

/-- The actions taken by `WatchDog.loop` over a finite schedule of
observed states `(enable, ts, now)`: the loop stops consuming the
schedule as soon as an action terminates the process. -/
def watchdogTrace (timeout : ℚ) : List (Bool × ℚ × ℚ) → List WatchAction
  | [] => []
  | (e, ts, now) :: rest =>
      let a := watchdogStep e timeout ts now
      a :: (if watchContinues a then watchdogTrace timeout rest else [])

/-- Number of fatal-timeout reports in a trace. -/
def fatalReports (tr : List WatchAction) : ℕ :=
  (tr.filter (fun a => a = WatchAction.fatalTimeout)).length

/-! ## electricity_meter.py — frame decoding and serial loop -/

/-- The dictionary built by meter `parse_data`
(electricity_meter.py:27-52); every key is always present there. -/
structure MeterReading where
  voltage : ℚ
  current : ℚ
  power : ℚ
  kwh : ℚ
  price : ℚ
  freq : ℚ
  coef : ℚ
  temperature : ℕ
  h : ℕ
  m : ℕ
  s : ℕ
  deriving DecidableEq, Repr

/-- meter `parse_data` (electricity_meter.py:27-52): big-endian fields at
fixed offsets with fixed divisors. -/
def meter_parse_data (raw : List ℕ) : MeterReading :=
  { voltage := (bytesToNatBE (slice raw 5 7) : ℚ) / 10
    current := (bytesToNatBE (slice raw 8 10) : ℚ) / 1000
    power := (bytesToNatBE (slice raw 11 13) : ℚ) / 10
    kwh := (bytesToNatBE (slice raw 15 17) : ℚ) / 100
    price := (bytesToNatBE (slice raw 19 20) : ℚ) / 100
    freq := (bytesToNatBE (slice raw 20 22) : ℚ) / 10
    coef := (bytesToNatBE (slice raw 22 24) : ℚ) / 1000
    temperature := bytesToNatBE (slice raw 25 26)
    h := bytesToNatBE (slice raw 26 28)
    m := bytesToNatBE (slice raw 28 29)
    s := bytesToNatBE (slice raw 29 30) }

/-- The fixed 4-byte meter frame header `\xff\x55\x01\x01`. -/
def meterHeader : List ℕ := [0xff, 0x55, 0x01, 0x01]

/-- One iteration of the `run_spp` while-loop (electricity_meter.py:75-98)
on the raw bytes read in that iteration, given the consecutive-error
counter: `Except.error` models the raised `SerialException`; otherwise
the new counter and whether a reading was decoded and emitted this
iteration.  The threshold `reconnect_threshold` is 20. -/
def sppStep (reconnect_count : ℕ) (raw : List ℕ) : Except Unit (ℕ × Bool) :=
  if raw.length < 32 ∨ slice raw 0 4 ≠ meterHeader then
    if reconnect_count > 20 then Except.error ()
    else Except.ok (reconnect_count + 1, false)
  else
    Except.ok (0, true)

/-- `run_spp` iterated over a finite schedule of raw reads: final counter,
or the raised `SerialException`. -/
def run_spp_list (reconnect_count : ℕ) : List (List ℕ) → Except Unit ℕ
  | [] => Except.ok reconnect_count
  | raw :: rest =>
      match sppStep reconnect_count raw with
      | Except.error e => Except.error e
      | Except.ok p => run_spp_list p.1 rest

/-- The serial branch of `main` (electricity_meter.py:182-188): when
`run_spp` raises `SerialException`, sleep 10 s and loop, reopening the
port with a fresh `run_spp` call; a normal result never occurs. -/
def main_spp_recover (r : Except Unit ℕ) : Option ℚ :=
  match r with
  | Except.error _ => some 10
  | Except.ok _ => none

/-- The BLE notification callback `notify_cb` (electricity_meter.py:122-139):
a reading is decoded only from an exactly-36-byte frame with the fixed
header; anything else logs and yields no reading. -/
def notify_cb (data : List ℕ) : Option MeterReading :=
  if data.length = 36 ∧ slice data 0 4 = meterHeader then
    some (meter_parse_data data)
  else none

/-! ## Concrete frames used to exercise the definitions -/

/-- A well-framed 17-byte frame whose status byte `0x90` claims both the
HTU21D (`0x80`) and the SHT4X (`0x10`) sub-sensors online. -/
def bothBitsFrame : List ℕ := [0x12, 0x90] ++ List.replicate 14 0 ++ [0x23]

/-- A well-framed 17-byte frame with status byte `0x70`
(SHT4X, BMP280 and GY302 online), all data bytes zero. -/
def okFrame : List ℕ := [0x12, 0x70] ++ List.replicate 14 0 ++ [0x23]

/-- The value `parse_data` decodes from `okFrame`. -/
def okReading : BlitzReading :=
  ⟨⟨false, true, true, true, false⟩,
    [("supply_voltage", supply_voltage (slice okFrame 2 4)),
     ("temperature", sht4x_temperature (slice okFrame 4 6)),
     ("humidity", sht4x_humidity (slice okFrame 6 8)),
     ("pressure", bmp280_pressure (slice okFrame 8 12)),
     ("temperature_aux", bmp280_temperature (slice okFrame 12 14)),
     ("light", gy302_light (slice okFrame 14 16))]⟩

/-- A well-framed 17-byte frame whose status byte is `0x00`: no sensor
online, supply-voltage bytes `0x10 0x0e` (3600 mV little-endian). -/
def noSensorFrame : List ℕ :=
  [0x12, 0x00, 0x10, 0x0e] ++ List.replicate 12 0 ++ [0x23]

/-- The value `parse_data` decodes from `noSensorFrame`. -/
def noSensorReading : BlitzReading :=
  ⟨⟨false, false, false, false, false⟩,
    [("supply_voltage", supply_voltage (slice noSensorFrame 2 4))]⟩

/-- A 36-byte meter frame: the fixed header followed by 32 data bytes. -/
def meterFrame : List ℕ := meterHeader ++ List.replicate 32 0

/-! ## Helper lemmas -/

theorem slice_one (l : List ℕ) (i : ℕ) (h : i + 1 ≤ l.length) :
    slice l i (i + 1) = [byteAt l i] := by
  have h1 : i + 1 - i = 1 := by omega
  unfold slice
  rw [h1]
  induction l generalizing i with
  | nil => simp at h
  | cons a t ih =>
    cases i with
    | zero => simp [byteAt]
    | succ n =>
      have h2 : n + 1 ≤ t.length := by simpa using h
      simpa [byteAt, List.getD] using ih n h2

theorem slice_two (l : List ℕ) (i : ℕ) (h : i + 2 ≤ l.length) :
    slice l i (i + 2) = [byteAt l i, byteAt l (i + 1)] := by
  have h1 : i + 2 - i = 2 := by omega
  unfold slice
  rw [h1]
  induction l generalizing i with
  | nil => simp at h
  | cons a t ih =>
    cases i with
    | zero =>
      cases t with
      | nil => simp at h
      | cons b t2 => simp [byteAt]
    | succ n =>
      have h2 : n + 2 ≤ t.length := by simpa using h
      simpa [byteAt, List.getD] using ih n h2

theorem bytesToNatBE_two (a b : ℕ) : bytesToNatBE [a, b] = 256 * a + b := by
  simp [bytesToNatBE, bytesToNatLE]
  ring

theorem bytesToNatBE_one (a : ℕ) : bytesToNatBE [a] = a := by
  simp [bytesToNatBE, bytesToNatLE]

/-- With both temperature sub-sensor bits set, `BLESensorStatus.parse`
raises (the mutual-exclusion assert, or the range assert). -/
theorem status_parse_both_bits (data : ℕ)
    (h1 : data &&& 0x80 ≠ 0) (h2 : data &&& 0x10 ≠ 0) :
    BLESensorStatus.parse data = Except.error () := by
  unfold BLESensorStatus.parse
  by_cases hd : data ≤ 255
  · simp [hd, h1, h2]
  · simp [hd]

/-- Inversion of blitz `parse_data`: a successful decode fixes the shape
of the resulting dictionary. -/
theorem parse_data_ok_shape (raw : List ℕ) (mask : ℕ) (r : BlitzReading)
    (h : parse_data raw mask = Except.ok r) :
    ∃ st, BLESensorStatus.parse (byteAt raw 1 &&& mask) = Except.ok st ∧
      r = ⟨st,
        [("supply_voltage", supply_voltage (slice raw 2 4))] ++
        (if st.is_sht4x_online then
          [("temperature", sht4x_temperature (slice raw 4 6)),
           ("humidity", sht4x_humidity (slice raw 6 8))]
        else if st.is_htu21d_online then
          [("temperature", htu21d_temperature (slice raw 4 6)),
           ("humidity", htu21d_humidity (slice raw 6 8))]
        else []) ++
        (if st.is_bmp280_online then
          [("pressure", bmp280_pressure (slice raw 8 12)),
           ("temperature_aux", bmp280_temperature (slice raw 12 14))]
        else []) ++
        (if st.is_gy302_online then
          [("light", gy302_light (slice raw 14 16))]
        else [])⟩ := by
  unfold parse_data at h
  by_cases hlen : raw.length = 17
  · rw [if_pos hlen] at h
    cases hst : BLESensorStatus.parse (byteAt raw 1 &&& mask) with
    | error e => rw [hst] at h; cases h
    | ok st =>
      rw [hst] at h
      refine ⟨st, rfl, ?_⟩
      cases h
      simp [List.append_assoc]
  · rw [if_neg hlen] at h
    cases h

/-! ## Claims -/

/-- C1 (counterexample): for the well-framed frame with status byte
`0x90` (both HTU21D and SHT4X bits set), the read loop does not skip the
frame as a malformed one and continue; instead the decode assertion
escapes the read loop. -/
theorem C1_counterexample :
    readStep bothBitsFrame 0xff = ReadOutcome.assertionError ∧
    ReadOutcome.assertionError ≠ ReadOutcome.malformedSkip ∧
    staysInReadLoop ReadOutcome.assertionError = false :=
  ⟨rfl, fun h => ReadOutcome.noConfusion h, rfl⟩

/-- C1 (amended): for every well-framed 17-byte frame whose masked
status byte has both the HTU21D and the SHT4X bits set, decoding raises
an assertion failure — no Reading is emitted and no sub-sensor is
silently picked — the error leaves the read loop, and the supervisor
catches it as a generic failure with a recoverable 3-second backoff
(the process does not fail fatally and the counter is unchanged). -/
theorem C1_both_bits_assertion (raw : List ℕ) (mask tc : ℕ)
    (hlen : raw.length = 17)
    (h0 : byteAt raw 0 = 0x12) (h16 : byteAt raw 16 = 0x23)
    (hhtu : (byteAt raw 1 &&& mask) &&& 0x80 ≠ 0)
    (hsht : (byteAt raw 1 &&& mask) &&& 0x10 ≠ 0) :
    readStep raw mask = ReadOutcome.assertionError ∧
    (∀ r, readStep raw mask ≠ ReadOutcome.emit r) ∧
    staysInReadLoop (readStep raw mask) = false ∧
    handle_error assertionErrorClass tc = ([3], tc) := by
  have hp : parse_data raw mask = Except.error () := by
    unfold parse_data
    rw [if_pos hlen, status_parse_both_bits _ hhtu hsht]
  have hr : readStep raw mask = ReadOutcome.assertionError := by
    unfold readStep
    rw [if_neg, hp]
    simp [hlen, h0, h16]
  refine ⟨hr, ?_, ?_, rfl⟩
  · intro r hcontra
    rw [hr] at hcontra
    cases hcontra
  · rw [hr]
    rfl

/-- C1 (witness): the amended statement at the concrete frame
`bothBitsFrame` with mask `0xff` and counter 5. -/
theorem C1_witness :
    readStep bothBitsFrame 0xff = ReadOutcome.assertionError ∧
    handle_error assertionErrorClass 5 = ([3], 5) :=
  ⟨(C1_both_bits_assertion bothBitsFrame 0xff 5 (by decide) (by decide)
      (by decide) (by decide) (by decide)).1,
   (C1_both_bits_assertion bothBitsFrame 0xff 5 (by decide) (by decide)
      (by decide) (by decide) (by decide)).2.2.2⟩

/-- C4 (counterexample): the all-zero 17-byte frame violates the framing
check (byte 0 is not `0x12`) but is not rejected through the
malformed-frame skip path: it takes the distinguished not-ready path
with a 30-second pause. -/
theorem C4_counterexample :
    byteAt (List.replicate 17 0) 0 ≠ 0x12 ∧
    readStep (List.replicate 17 0) 0xff = ReadOutcome.notReadyPause 30 ∧
    ReadOutcome.notReadyPause 30 ≠ ReadOutcome.malformedSkip :=
  ⟨by decide, rfl, fun h => ReadOutcome.noConfusion h⟩

/-- C4 (amended): decoding emits a Reading only for a payload of exactly
17 bytes with byte 0 = `0x12` and byte 16 = `0x23`; on any violation no
Reading is emitted and the read loop continues with the next frame — the
all-zero frame through the not-ready path with a 30-second pause, every
other violation through the malformed-frame skip path. -/
theorem C4_framing (raw : List ℕ) (mask : ℕ)
    (hbad : ¬(raw.length = 17 ∧ byteAt raw 0 = 0x12 ∧ byteAt raw 16 = 0x23)) :
    (∀ r, readStep raw mask ≠ ReadOutcome.emit r) ∧
    staysInReadLoop (readStep raw mask) = true ∧
    (raw = List.replicate 17 0 → readStep raw mask = ReadOutcome.notReadyPause 30) ∧
    (raw ≠ List.replicate 17 0 → readStep raw mask = ReadOutcome.malformedSkip) ∧
    (∀ raw2 mask2 r2, readStep raw2 mask2 = ReadOutcome.emit r2 →
      raw2.length = 17 ∧ byteAt raw2 0 = 0x12 ∧ byteAt raw2 16 = 0x23) := by
  have hcond : raw.length ≠ 17 ∨ byteAt raw 0 ≠ 0x12 ∨ byteAt raw 16 ≠ 0x23 := by
    by_contra hc
    push_neg at hc
    exact hbad ⟨hc.1, hc.2.1, hc.2.2⟩
  have hstep : readStep raw mask =
      (if raw = List.replicate 17 0 then ReadOutcome.notReadyPause 30
       else ReadOutcome.malformedSkip) := by
    unfold readStep
    rw [if_pos hcond]
  refine ⟨?_, ?_, ?_, ?_, ?_⟩
  · intro r hcontra
    rw [hstep] at hcontra
    by_cases hz : raw = List.replicate 17 0
    · rw [if_pos hz] at hcontra; cases hcontra
    · rw [if_neg hz] at hcontra; cases hcontra
  · rw [hstep]
    by_cases hz : raw = List.replicate 17 0
    · rw [if_pos hz]; rfl
    · rw [if_neg hz]; rfl
  · intro hz
    rw [hstep, if_pos hz]
  · intro hz
    rw [hstep, if_neg hz]
  · intro raw2 mask2 r2 hem
    unfold readStep at hem
    by_cases hc2 : raw2.length ≠ 17 ∨ byteAt raw2 0 ≠ 0x12 ∨ byteAt raw2 16 ≠ 0x23
    · rw [if_pos hc2] at hem
      by_cases hz : raw2 = List.replicate 17 0
      · rw [if_pos hz] at hem; cases hem
      · rw [if_neg hz] at hem; cases hem
    · push_neg at hc2
      exact ⟨hc2.1, hc2.2.1, hc2.2.2⟩

/-- C4 (witness): the amended statement at the concrete one-byte payload
`[0]`, which is skipped as malformed and keeps the loop running. -/
theorem C4_witness :
    staysInReadLoop (readStep [0] 255) = true ∧
    readStep [0] 255 = ReadOutcome.malformedSkip :=
  ⟨(C4_framing [0] 255 (by decide)).2.1,
   (C4_framing [0] 255 (by decide)).2.2.2.1 (by decide)⟩

/-- C8: the all-zero 17-byte frame is handled as the distinguished
recoverable not-ready condition for every mask: a 30-second pause, never
the malformed-frame skip, no Reading emitted, and the supervisor stays
in the read loop. -/
theorem C8_all_zero_not_ready (mask : ℕ) :
    readStep (List.replicate 17 0) mask = ReadOutcome.notReadyPause 30 ∧
    readStep (List.replicate 17 0) mask ≠ ReadOutcome.malformedSkip ∧
    (∀ r, readStep (List.replicate 17 0) mask ≠ ReadOutcome.emit r) ∧
    staysInReadLoop (readStep (List.replicate 17 0) mask) = true := by
  have h : readStep (List.replicate 17 0) mask = ReadOutcome.notReadyPause 30 := rfl
  refine ⟨h, ?_, ?_, ?_⟩
  · rw [h]; exact fun hc => ReadOutcome.noConfusion hc
  · intro r hc
    rw [h] at hc
    cases hc
  · rw [h]
    rfl

/-- C2 (counterexample): after 11 consecutive timeout-class connect
failures the 11th occurrence does apply the escalated backoff (60 s then
the common 3 s), but the consecutive-timeout counter is 11 afterwards —
it is not reset. -/
theorem C2_counterexample :
    (runTimeouts 11).2.getD 10 [] = [60, 3] ∧
    (runTimeouts 11).1 = 11 ∧
    (runTimeouts 11).1 ≠ 0 :=
  ⟨rfl, rfl, by decide⟩

/-- C2 (amended): with 11 consecutive timeout-class connect failures the
counter exceeds 10 on the 11th failure and the supervisor applies the
escalated 60-second backoff on that occurrence, but the counter is not
reset there: it keeps growing (after n consecutive timeouts it equals n),
so the 12th consecutive timeout is also escalated. -/
theorem C2_timeout_escalation :
    (runTimeouts 10).2.getD 9 [] = [3] ∧
    (runTimeouts 11).2.getD 10 [] = [60, 3] ∧
    (runTimeouts 11).1 = 11 ∧
    (runTimeouts 12).2.getD 11 [] = [60, 3] ∧
    (∀ n, (runTimeouts n).1 = n) := by
  have hc : ∀ tc, (handle_error BleError.timeoutError tc).2 = tc + 1 := by
    intro tc
    unfold handle_error
    by_cases h : tc + 1 > 10 <;> simp [h]
  refine ⟨rfl, rfl, rfl, rfl, ?_⟩
  intro n
  induction n with
  | zero => rfl
  | succ k ih =>
    show (handle_error BleError.timeoutError (runTimeouts k).1).2 = k + 1
    rw [hc, ih]

/-- C3: the monitoring loop of `WatchDog.loop` — while disabled it
sleeps half the timeout and rechecks; while enabled, if the elapsed time
since the last touch is at least the timeout it reports a fatal timeout
and terminates, otherwise it sleeps the remaining time and rechecks;
every iteration either sleeps-and-rechecks or terminates (the loop never
returns normally), and along any schedule of observed states the fatal
timeout is reported at most once and nothing follows it. -/
theorem C3_watchdog_loop :
    (∀ (timeout ts now : ℚ),
      watchdogStep false timeout ts now = WatchAction.sleepRecheck (timeout / 2)) ∧
    (∀ (timeout ts now : ℚ), now - ts ≥ timeout →
      watchdogStep true timeout ts now = WatchAction.fatalTimeout) ∧
    (∀ (timeout ts now : ℚ), now - ts < timeout →
      watchdogStep true timeout ts now = WatchAction.sleepRecheck (timeout - (now - ts))) ∧
    (∀ (e : Bool) (timeout ts now : ℚ),
      watchdogStep e timeout ts now = WatchAction.fatalTimeout ∨
      ∃ d, watchdogStep e timeout ts now = WatchAction.sleepRecheck d) ∧
    (∀ (timeout : ℚ) (obs : List (Bool × ℚ × ℚ)),
      fatalReports (watchdogTrace timeout obs) ≤ 1) ∧
    (∀ (timeout : ℚ) (obs : List (Bool × ℚ × ℚ)),
      WatchAction.fatalTimeout ∈ watchdogTrace timeout obs →
      (watchdogTrace timeout obs).getLast? = some WatchAction.fatalTimeout) := by
  have hdis : ∀ (timeout ts now : ℚ),
      watchdogStep false timeout ts now = WatchAction.sleepRecheck (timeout / 2) := by
    intro timeout ts now
    unfold watchdogStep
    simp
  have hfat : ∀ (timeout ts now : ℚ), now - ts ≥ timeout →
      watchdogStep true timeout ts now = WatchAction.fatalTimeout := by
    intro timeout ts now h
    unfold watchdogStep
    simp [h]
  have hsleep : ∀ (timeout ts now : ℚ), now - ts < timeout →
      watchdogStep true timeout ts now = WatchAction.sleepRecheck (timeout - (now - ts)) := by
    intro timeout ts now h
    unfold watchdogStep
    simp [not_le.mpr h]
  have htotal : ∀ (e : Bool) (timeout ts now : ℚ),
      watchdogStep e timeout ts now = WatchAction.fatalTimeout ∨
      ∃ d, watchdogStep e timeout ts now = WatchAction.sleepRecheck d := by
    intro e timeout ts now
    cases ha : watchdogStep e timeout ts now with
    | sleepRecheck d => exact Or.inr ⟨d, rfl⟩
    | fatalTimeout => exact Or.inl rfl
  have htrace : ∀ (timeout : ℚ) (obs : List (Bool × ℚ × ℚ)),
      fatalReports (watchdogTrace timeout obs) ≤ 1 ∧
      (WatchAction.fatalTimeout ∈ watchdogTrace timeout obs →
        (watchdogTrace timeout obs).getLast? = some WatchAction.fatalTimeout) := by
    intro timeout obs
    induction obs with
    | nil => simp [watchdogTrace, fatalReports]
    | cons hd tl ih =>
      obtain ⟨e, ts, now⟩ := hd
      cases ha : watchdogStep e timeout ts now with
      | fatalTimeout =>
        constructor
        · simp [watchdogTrace, ha, watchContinues, fatalReports]
        · intro _
          simp [watchdogTrace, ha, watchContinues]
      | sleepRecheck d =>
        have htl : watchdogTrace timeout ((e, ts, now) :: tl) =
            WatchAction.sleepRecheck d :: watchdogTrace timeout tl := by
          simp [watchdogTrace, ha, watchContinues]
        constructor
        · rw [htl]
          have : fatalReports (WatchAction.sleepRecheck d :: watchdogTrace timeout tl) =
              fatalReports (watchdogTrace timeout tl) := by
            simp [fatalReports]
          rw [this]
          exact ih.1
        · intro hmem
          rw [htl] at hmem ⊢
          have hmem2 : WatchAction.fatalTimeout ∈ watchdogTrace timeout tl := by
            rcases List.mem_cons.mp hmem with h | h
            · cases h
            · exact h
          have hlast := ih.2 hmem2
          cases hcase : watchdogTrace timeout tl with
          | nil =>
            rw [hcase] at hmem2
            cases hmem2
          | cons a rest =>
            rw [hcase] at hlast
            rw [List.getLast?_cons_cons]
            exact hlast
  exact ⟨hdis, hfat, hsleep, htotal,
    fun timeout obs => (htrace timeout obs).1,
    fun timeout obs => (htrace timeout obs).2⟩

/-- C3 (witness): the watchdog step at concrete states — disabled with
timeout 120 sleeps 60; enabled with elapsed 120 ≥ 120 reports the fatal
timeout; enabled with elapsed 40 < 120 sleeps the remaining 80. -/
theorem C3_witness :
    watchdogStep false 120 0 0 = WatchAction.sleepRecheck 60 ∧
    watchdogStep true 120 0 120 = WatchAction.fatalTimeout ∧
    watchdogStep true 120 10 50 = WatchAction.sleepRecheck 80 := by
  refine ⟨?_, ?_, ?_⟩
  · have h := C3_watchdog_loop.1 120 0 0
    have h2 : (120 : ℚ) / 2 = 60 := by norm_num
    rw [h2] at h
    exact h
  · exact C3_watchdog_loop.2.1 120 0 120 (by norm_num)
  · have h := C3_watchdog_loop.2.2.1 120 10 50 (by norm_num)
    have h2 : (120 : ℚ) - (50 - 10) = 80 := by norm_num
    rw [h2] at h
    exact h

/-- C5: a 36-byte meter frame with the fixed header `ff 55 01 01`
decodes its big-endian fields at the documented offsets with the
documented divisors (voltage = bytes 5..6 over 10, current = bytes 8..9
over 1000, power = bytes 11..12 over 10, energy = bytes 15..16 over 100,
price = byte 19 over 100, frequency = bytes 20..21 over 10, power factor
= bytes 22..23 over 1000, temperature = byte 25, clock = bytes 26..29),
and the notification path emits the decoded reading; any frame shorter
than 32 bytes or with a mismatched header is rejected with no Reading on
both the serial and the notification path. -/
theorem C5_meter_decode (raw : List ℕ)
    (hlen : raw.length = 36) (hdr : slice raw 0 4 = meterHeader) :
    (meter_parse_data raw).voltage =
      ((256 * byteAt raw 5 + byteAt raw 6 : ℕ) : ℚ) / 10 ∧
    (meter_parse_data raw).current =
      ((256 * byteAt raw 8 + byteAt raw 9 : ℕ) : ℚ) / 1000 ∧
    (meter_parse_data raw).power =
      ((256 * byteAt raw 11 + byteAt raw 12 : ℕ) : ℚ) / 10 ∧
    (meter_parse_data raw).kwh =
      ((256 * byteAt raw 15 + byteAt raw 16 : ℕ) : ℚ) / 100 ∧
    (meter_parse_data raw).price = ((byteAt raw 19 : ℕ) : ℚ) / 100 ∧
    (meter_parse_data raw).freq =
      ((256 * byteAt raw 20 + byteAt raw 21 : ℕ) : ℚ) / 10 ∧
    (meter_parse_data raw).coef =
      ((256 * byteAt raw 22 + byteAt raw 23 : ℕ) : ℚ) / 1000 ∧
    (meter_parse_data raw).temperature = byteAt raw 25 ∧
    (meter_parse_data raw).h = 256 * byteAt raw 26 + byteAt raw 27 ∧
    (meter_parse_data raw).m = byteAt raw 28 ∧
    (meter_parse_data raw).s = byteAt raw 29 ∧
    notify_cb raw = some (meter_parse_data raw) ∧
    (∀ (bad : List ℕ),
      bad.length < 32 ∨ slice bad 0 4 ≠ meterHeader →
      notify_cb bad = none ∧
      ∀ (count c : ℕ), sppStep count bad ≠ Except.ok (c, true)) := by
  have h2 : ∀ i : ℕ, i + 2 ≤ 36 →
      slice raw i (i + 2) = [byteAt raw i, byteAt raw (i + 1)] := by
    intro i hi
    exact slice_two raw i (by omega)
  have h1 : ∀ i : ℕ, i + 1 ≤ 36 → slice raw i (i + 1) = [byteAt raw i] := by
    intro i hi
    exact slice_one raw i (by omega)
  have hfield : ∀ i : ℕ, i + 2 ≤ 36 →
      bytesToNatBE (slice raw i (i + 2)) = 256 * byteAt raw i + byteAt raw (i + 1) := by
    intro i hi
    rw [h2 i hi, bytesToNatBE_two]
  have hfield1 : ∀ i : ℕ, i + 1 ≤ 36 →
      bytesToNatBE (slice raw i (i + 1)) = byteAt raw i := by
    intro i hi
    rw [h1 i hi, bytesToNatBE_one]
  refine ⟨?_, ?_, ?_, ?_, ?_, ?_, ?_, ?_, ?_, ?_, ?_, ?_, ?_⟩
  · show (bytesToNatBE (slice raw 5 7) : ℚ) / 10 = _
    rw [hfield 5 (by omega)]
  · show (bytesToNatBE (slice raw 8 10) : ℚ) / 1000 = _
    rw [hfield 8 (by omega)]
  · show (bytesToNatBE (slice raw 11 13) : ℚ) / 10 = _
    rw [hfield 11 (by omega)]
  · show (bytesToNatBE (slice raw 15 17) : ℚ) / 100 = _
    rw [hfield 15 (by omega)]
  · show (bytesToNatBE (slice raw 19 20) : ℚ) / 100 = _
    rw [hfield1 19 (by omega)]
  · show (bytesToNatBE (slice raw 20 22) : ℚ) / 10 = _
    rw [hfield 20 (by omega)]
  · show (bytesToNatBE (slice raw 22 24) : ℚ) / 1000 = _
    rw [hfield 22 (by omega)]
  · show bytesToNatBE (slice raw 25 26) = _
    rw [hfield1 25 (by omega)]
  · show bytesToNatBE (slice raw 26 28) = _
    rw [hfield 26 (by omega)]
  · show bytesToNatBE (slice raw 28 29) = _
    rw [hfield1 28 (by omega)]
  · show bytesToNatBE (slice raw 29 30) = _
    rw [hfield1 29 (by omega)]
  · unfold notify_cb
    rw [if_pos ⟨hlen, hdr⟩]
  · intro bad hbad
    constructor
    · unfold notify_cb
      rw [if_neg]
      intro hc
      rcases hbad with h | h
      · omega
      · exact h hc.2
    · intro count c hc
      unfold sppStep at hc
      rw [if_pos hbad] at hc
      by_cases hcnt : count > 20
      · rw [if_pos hcnt] at hc
        cases hc
      · rw [if_neg hcnt] at hc
        have := (Except.ok.inj hc)
        have hfalse : false = true := congrArg Prod.snd this
        cases hfalse

/-- C5 (witness): the theorem applied to the concrete frame
`meterFrame` (header plus 32 zero bytes). -/
theorem C5_witness :
    (meter_parse_data meterFrame).voltage =
      ((256 * byteAt meterFrame 5 + byteAt meterFrame 6 : ℕ) : ℚ) / 10 ∧
    notify_cb meterFrame = some (meter_parse_data meterFrame) ∧
    notify_cb [0] = none :=
  ⟨(C5_meter_decode meterFrame (by decide) (by decide)).1,
   (C5_meter_decode meterFrame (by decide) (by decide)).2.2.2.2.2.2.2.2.2.2.2.1,
   ((C5_meter_decode meterFrame (by decide) (by decide)).2.2.2.2.2.2.2.2.2.2.2.2
      [0] (by decide)).1⟩

/-- C6: for every raw humidity field (hence for every raw 16-bit input),
the decoded humidity of both the HTU21D and the SHT4X sub-sensor lies in
the closed interval [0, 100], thanks to the explicit clamps. -/
theorem C6_humidity_clamped (data : List ℕ) :
    0 ≤ htu21d_humidity data ∧ htu21d_humidity data ≤ 100 ∧
    0 ≤ sht4x_humidity data ∧ sht4x_humidity data ≤ 100 := by
  unfold htu21d_humidity sht4x_humidity
  refine ⟨?_, ?_, ?_, ?_⟩ <;>
    · dsimp only
      split_ifs <;> linarith

/-- C6 (witness): the humidity bounds at the maximal raw field
`0xffff`. -/
theorem C6_witness :
    0 ≤ htu21d_humidity [0xff, 0xff] ∧ htu21d_humidity [0xff, 0xff] ≤ 100 ∧
    0 ≤ sht4x_humidity [0xff, 0xff] ∧ sht4x_humidity [0xff, 0xff] ≤ 100 :=
  C6_humidity_clamped [0xff, 0xff]

/-- C8 (witness): the all-zero frame with the default mask `0xff`. -/
theorem C8_witness :
    readStep (List.replicate 17 0) 255 = ReadOutcome.notReadyPause 30 ∧
    staysInReadLoop (readStep (List.replicate 17 0) 255) = true :=
  ⟨(C8_all_zero_not_ready 255).1, (C8_all_zero_not_ready 255).2.2.2⟩

/-- C7: in every successfully decoded BLE reading, the temperature and
humidity entries are present exactly when the (masked) HTU21D or SHT4X
presence bit is set, pressure and auxiliary temperature exactly when the
BMP280 bit is set, and light exactly when the GY302 bit is set; entries
of absent sensors are omitted from the dictionary, not set to zero. -/
theorem C7_presence_fields (raw : List ℕ) (mask : ℕ) (r : BlitzReading)
    (h : parse_data raw mask = Except.ok r) :
    (("temperature" ∈ r.fields.map Prod.fst) ↔
      (r.status.is_htu21d_online = true ∨ r.status.is_sht4x_online = true)) ∧
    (("humidity" ∈ r.fields.map Prod.fst) ↔
      (r.status.is_htu21d_online = true ∨ r.status.is_sht4x_online = true)) ∧
    (("pressure" ∈ r.fields.map Prod.fst) ↔ r.status.is_bmp280_online = true) ∧
    (("temperature_aux" ∈ r.fields.map Prod.fst) ↔ r.status.is_bmp280_online = true) ∧
    (("light" ∈ r.fields.map Prod.fst) ↔ r.status.is_gy302_online = true) := by
  obtain ⟨st, _, hr⟩ := parse_data_ok_shape raw mask r h
  subst hr
  obtain ⟨b1, b2, b3, b4, b5⟩ := st
  cases b1 <;> cases b2 <;> cases b3 <;> cases b4 <;> simp

/-- C7 (witness): the field-presence equivalences at the concrete frame
`okFrame` (SHT4X, BMP280 and GY302 online), whose decode is `okReading`. -/
theorem C7_witness :
    (("temperature" ∈ okReading.fields.map Prod.fst) ↔
      (okReading.status.is_htu21d_online = true ∨
       okReading.status.is_sht4x_online = true)) ∧
    (("humidity" ∈ okReading.fields.map Prod.fst) ↔
      (okReading.status.is_htu21d_online = true ∨
       okReading.status.is_sht4x_online = true)) ∧
    (("pressure" ∈ okReading.fields.map Prod.fst) ↔
      okReading.status.is_bmp280_online = true) ∧
    (("temperature_aux" ∈ okReading.fields.map Prod.fst) ↔
      okReading.status.is_bmp280_online = true) ∧
    (("light" ∈ okReading.fields.map Prod.fst) ↔
      okReading.status.is_gy302_online = true) :=
  C7_presence_fields okFrame 255 okReading rfl

/-- C9: every successfully decoded BLE reading contains the
supply-voltage entry, whatever the status bits and the mask. -/
theorem C9_supply_voltage_always (raw : List ℕ) (mask : ℕ) (r : BlitzReading)
    (h : parse_data raw mask = Except.ok r) :
    "supply_voltage" ∈ r.fields.map Prod.fst := by
  obtain ⟨st, _, hr⟩ := parse_data_ok_shape raw mask r h
  subst hr
  simp

/-- C9 (witness): the supply-voltage entry is present in the decode of
the concrete frame `noSensorFrame`, whose status byte says no sensor is
online at all. -/
theorem C9_witness :
    "supply_voltage" ∈ noSensorReading.fields.map Prod.fst :=
  C9_supply_voltage_always noSensorFrame 255 noSensorReading rfl

/-- C10: on the serial path, an invalid read (shorter than 32 bytes or
without the header) raises `SerialException` exactly when more than 20
consecutive invalid reads have already been counted, and otherwise
increments the counter; any valid frame resets the counter to zero and
is decoded; consequently 21 consecutive invalid reads are tolerated and
the 22nd raises; `main` answers the raised `SerialException` by a
10-second pause before reopening the port. -/
theorem C10_spp_circuit_breaker (count : ℕ) (raw : List ℕ) :
    ((raw.length < 32 ∨ slice raw 0 4 ≠ meterHeader) →
      ((sppStep count raw = Except.error ()) ↔ count > 20) ∧
      (count ≤ 20 → sppStep count raw = Except.ok (count + 1, false))) ∧
    (raw.length ≥ 32 → slice raw 0 4 = meterHeader →
      sppStep count raw = Except.ok (0, true)) ∧
    run_spp_list 0 (List.replicate 21 []) = Except.ok 21 ∧
    run_spp_list 0 (List.replicate 22 []) = Except.error () ∧
    main_spp_recover (run_spp_list 0 (List.replicate 22 [])) = some 10 := by
  refine ⟨?_, ?_, rfl, rfl, rfl⟩
  · intro hbad
    constructor
    · constructor
      · intro herr
        unfold sppStep at herr
        rw [if_pos hbad] at herr
        by_cases hcnt : count > 20
        · exact hcnt
        · rw [if_neg hcnt] at herr
          cases herr
      · intro hcnt
        unfold sppStep
        rw [if_pos hbad, if_pos hcnt]
    · intro hle
      unfold sppStep
      rw [if_pos hbad, if_neg (by omega)]
  · intro hge hhdr
    unfold sppStep
    rw [if_neg]
    intro hc
    rcases hc with h | h
    · omega
    · exact h hhdr

/-- C10 (witness): with counter 21 an invalid read raises; with counter
20 it still continues; a valid 36-byte frame resets the counter. -/
theorem C10_witness :
    ((sppStep 21 [] = Except.error ()) ↔ 21 > 20) ∧
    sppStep 20 [] = Except.ok (21, false) ∧
    sppStep 7 meterFrame = Except.ok (0, true) :=
  ⟨((C10_spp_circuit_breaker 21 []).1 (by decide)).1,
   ((C10_spp_circuit_breaker 20 []).1 (by decide)).2 (by decide),
   (C10_spp_circuit_breaker 7 meterFrame).2.1 (by decide) (by decide)⟩

end FluxUtils
